import Mathlib

/-!
Verification development for the crm-api repository.

The TypeScript services are shallowly embedded as pure Lean functions over an
explicit record-store state (`DB`).  Supabase query builders are modelled as
pure queries over the lists held in `DB`; `.single()` succeeds exactly when
one row matches, `.limit(1).single()` takes the first matching row.  External
side effects (record-store reads/writes, WhatsApp calls, outbound HTTP posts,
token refreshes, the timing-safe comparator) are recorded in an explicit
`Effect` trace.  JavaScript truthiness on strings (null / undefined / "" are
all falsy) is modelled by `jsTruthy` / `jsOpt` on `Option String`.
Store-level infrastructure failures are not modelled: queries over the state
always answer, so the `checkError`-style branches of the source that merely
propagate a store outage are unreachable in the embedding.
-/

namespace CrmApi

/-- One observable external effect of a service call. -/
inductive Effect : Type where
  | storeRead (table : String)
  | storeWrite (table : String)
  | whatsappGetMessages
  | whatsappSend (phoneNumberId dest : String)
  | httpPost (url : String)
  | tokenRefresh
  | freeBusyQuery
  | dispatchStageWebhook
  | timingSafeCompare
  deriving DecidableEq, Repr

/-- JS truthiness of a nullable string: `null`/`undefined`/`""` are falsy. -/
def jsTruthy : Option String → Bool
  | none => false
  | some s => decide (s ≠ "")

/-- Normalise a nullable string by JS truthiness: falsy values become `none`
(the `x || null` idiom of the source). -/
def jsOpt : Option String → Option String
  | none => none
  | some s => if s = "" then none else some s

/-- The `a || default` idiom on a nullable string with a string default. -/
def jsOr (s : Option String) (d : String) : String :=
  match s with
  | none => d
  | some t => if t = "" then d else t

/-- `.single()` of supabase: data exactly when the filtered result has one row. -/
def single {α : Type} : List α → Option α
  | [x] => some x
  | _ => none

/-- Row of the `pipelines` table (the fields the core reads). -/
structure Pipeline where
  id : Nat
  business_id : Nat
  whatsapp_is_enabled : Bool
  whatsapp_phone_number_id : Option String
  deriving DecidableEq, Repr

/-- Row of the `businesses` table. -/
structure Business where
  id : Nat
  deriving DecidableEq, Repr

/-- Row of the `pipeline_stages` table. -/
structure Stage where
  id : Nat
  pipeline_id : Nat
  business_id : Nat
  position : Int
  is_input : Bool
  webhook_url : Option String
  deriving DecidableEq, Repr

/-- Row of the `pipeline_stage_leads` table. -/
structure Lead where
  id : Nat
  customer_name : String
  phone_number : Option String
  email : Option String
  pipeline_stage_id : Nat
  value : Int
  whatsapp_conversation_id : Option String
  business_id : Nat
  closed_at : Option String
  deriving DecidableEq, Repr

/-- Row of the `business_employee_oauth_connections` table. -/
structure OAuthConnection where
  id : Nat
  business_employee_id : Nat
  business_id : Nat
  access_token : Option String
  refresh_token : Option String
  token_expires_at : Option Int
  updated_at : Option Int
  deriving DecidableEq, Repr

/-- The record store: one list per table, plus the id the next inserted lead
row receives. -/
structure DB where
  pipelines : List Pipeline
  businesses : List Business
  stages : List Stage
  leads : List Lead
  connections : List OAuthConnection
  nextLeadId : Nat
  deriving DecidableEq, Repr

/-- `body.conversation` of an inbound WhatsApp webhook event. -/
structure Conversation where
  contact_name : Option String
  phone_number : Option String
  email : Option String
  id : Option String
  deriving DecidableEq, Repr

/-- The inbound WhatsApp webhook event body. -/
structure WebhookBody where
  phone_number_id : Option String
  conversation : Option Conversation
  deriving DecidableEq, Repr

/-- Conversation info extracted from the event body. -/
structure ConversationInfo where
  phoneNumberId : String
  customerName : String
  phoneNumber : Option String
  email : Option String
  whatsappConversationId : Option String
  deriving DecidableEq, Repr

/-- `LeadsService.extractConversationInfo`: `null` when `phone_number_id` is
falsy, otherwise the extracted fields with their `||` defaults. -/
def extractConversationInfo (body : WebhookBody) : Option ConversationInfo :=
  match jsOpt body.phone_number_id with
  | none => none
  | some phoneNumberId =>
    some
      { phoneNumberId := phoneNumberId
        customerName := jsOr (body.conversation.bind (·.contact_name)) "Unknown"
        phoneNumber := jsOpt (body.conversation.bind (·.phone_number))
        email := jsOpt (body.conversation.bind (·.email))
        whatsappConversationId := jsOpt (body.conversation.bind (·.id)) }

/-- `LeadsService.findPipeline`: single pipeline with
`whatsapp_is_enabled = true` and the given `whatsapp_phone_number_id`. -/
def findPipeline (db : DB) (phoneNumberId : String) : Option Pipeline :=
  single (db.pipelines.filter
    (fun p => p.whatsapp_is_enabled &&
      decide (p.whatsapp_phone_number_id = some phoneNumberId)))

/-- `LeadsService.findBusiness`: single business with the given id. -/
def findBusiness (db : DB) (businessId : Nat) : Option Business :=
  single (db.businesses.filter (fun b => decide (b.id = businessId)))

/-- `LeadsService.findInputStage`: single stage of the pipeline with
`is_input = true`. -/
def findInputStage (db : DB) (pipelineId : Nat) : Option Stage :=
  single (db.stages.filter
    (fun s => decide (s.pipeline_id = pipelineId) && s.is_input))

/-- The open leads (`closed_at is null`) stored for a phone number, in table
order — the rows seen by both queries of `getOrCreateLead`. -/
def openLeadsFor (db : DB) (phone : String) : List Lead :=
  db.leads.filter
    (fun l => decide (l.phone_number = some phone) && decide (l.closed_at = none))

/-- The exact count of the open-lead check query of `getOrCreateLead`. -/
def countOpenLeads (db : DB) (phone : String) : Nat :=
  (openLeadsFor db phone).length

/-- The lead row `getOrCreateLead` inserts in its create branch. -/
def newLeadRow (info : ConversationInfo) (stage : Stage) (id : Nat)
    (phone : String) : Lead :=
  { id := id
    customer_name := info.customerName
    phone_number := some phone
    email := info.email
    pipeline_stage_id := stage.id
    value := 0
    whatsapp_conversation_id := info.whatsappConversationId
    business_id := stage.business_id
    closed_at := none }

/-- Value returned by `getOrCreateLead` on its non-throwing paths. -/
structure GetOrCreateResult where
  leadId : Nat
  isNewLead : Bool
  existingCount : Option Nat
  lead : Option Lead
  deriving DecidableEq, Repr

/-- `LeadsService.getOrCreateLead`.  Throws (`Except.error`) when the phone
number is falsy; otherwise counts open leads for the phone number and either
returns the first existing open lead (count > 0) or inserts a new lead row at
the given stage with value 0 (count = 0). -/
def getOrCreateLead (db : DB) (info : ConversationInfo) (stage : Stage) :
    Except String GetOrCreateResult × DB × List Effect :=
  match jsOpt info.phoneNumber with
  | none => (.error "Phone number is required to get or create lead", db, [])
  | some phone =>
    let opened := openLeadsFor db phone
    let count := opened.length
    if count > 0 then
      -- `.limit(1).single()`: the first matching row
      let existing := opened.head?
      (.ok
        { leadId := (existing.map (·.id)).getD 0
          isNewLead := false
          existingCount := some count
          lead := existing }, db,
        [Effect.storeRead "pipeline_stage_leads", Effect.storeRead "pipeline_stage_leads"])
    else
      let lead := newLeadRow info stage db.nextLeadId phone
      (.ok
        { leadId := lead.id
          isNewLead := true
          existingCount := none
          lead := some lead },
        { db with leads := db.leads ++ [lead], nextLeadId := db.nextLeadId + 1 },
        [Effect.storeRead "pipeline_stage_leads", Effect.storeWrite "pipeline_stage_leads"])

/-- Descending order on stage positions (`.order('position', ascending: false)`). -/
def posDesc (a b : Stage) : Prop := b.position ≤ a.position

/-- Ascending order on stage positions (`.order('position', ascending: true)`). -/
def posAsc (a b : Stage) : Prop := a.position ≤ b.position

instance : DecidableRel posDesc := fun a b =>
  inferInstanceAs (Decidable (b.position ≤ a.position))

instance : DecidableRel posAsc := fun a b =>
  inferInstanceAs (Decidable (a.position ≤ b.position))

instance : IsTotal Stage posDesc := ⟨fun a b => le_total b.position a.position⟩

instance : IsTotal Stage posAsc := ⟨fun a b => le_total a.position b.position⟩

instance : IsTrans Stage posDesc :=
  ⟨fun _ _ _ hab hbc => le_trans hbc hab⟩

instance : IsTrans Stage posAsc :=
  ⟨fun _ _ _ hab hbc => le_trans hab hbc⟩

/-- `LeadsService.getRelatedStages`: stages of the pipeline strictly before
the current position ordered by position descending, and strictly after it
ordered by position ascending. -/
def getRelatedStages (db : DB) (pipelineId : Nat) (currentPosition : Int) :
    List Stage × List Stage :=
  let previousStages := List.insertionSort posDesc
    (db.stages.filter (fun s =>
      decide (s.pipeline_id = pipelineId) && decide (s.position < currentPosition)))
  let nextStages := List.insertionSort posAsc
    (db.stages.filter (fun s =>
      decide (s.pipeline_id = pipelineId) && decide (s.position > currentPosition)))
  (previousStages, nextStages)

/-- Status field of the structured results returned by the services. -/
inductive Status : Type where
  | success
  | skipped
  | error
  deriving DecidableEq, Repr

/-- The structured result of `handleWhatsappWebhook` (timestamp omitted). -/
structure WebhookResult where
  status : Status
  message : String
  lead_id : Option Nat
  count : Option Nat
  deriving DecidableEq, Repr

/-- An error result of `handleWhatsappWebhook` (no lead id, no count). -/
def webhookError (msg : String) : WebhookResult :=
  { status := .error, message := msg, lead_id := none, count := none }

/-- `LeadsService.handleWhatsappWebhook`: extract conversation info, resolve
pipeline, business and input stage, run the create-or-skip step, resolve the
related stages, fire the stage webhook without awaiting it, and return the
structured result.  A throw out of `getOrCreateLead` is caught by the outer
try/catch and turned into the generic error result. -/
def handleWhatsappWebhook (db : DB) (body : WebhookBody) :
    WebhookResult × DB × List Effect :=
  match extractConversationInfo body with
  | none => (webhookError "Missing phone_number_id", db, [])
  | some info =>
    match findPipeline db info.phoneNumberId with
    | none =>
      (webhookError "Pipeline not found or WhatsApp not enabled", db,
        [Effect.storeRead "pipelines"])
    | some pipeline =>
      -- business and input stage are fetched in parallel: both reads happen
      let tr0 : List Effect :=
        [Effect.storeRead "pipelines", Effect.storeRead "businesses",
         .storeRead "pipeline_stages"]
      match findBusiness db pipeline.business_id with
      | none => (webhookError "Business not found", db, tr0)
      | some _business =>
        match findInputStage db pipeline.id with
        | none => (webhookError "Input stage not found for pipeline", db, tr0)
        | some stage =>
          match getOrCreateLead db info stage with
          | (.error _, db1, tr1) =>
            (webhookError "Unexpected error processing webhook", db1, tr0 ++ tr1)
          | (.ok r, db1, tr1) =>
            let _related := getRelatedStages db1 pipeline.id stage.position
            let trRel : List Effect :=
              [Effect.storeRead "pipeline_stages", Effect.storeRead "pipeline_stages"]
            ({ status := if r.isNewLead then .success else .skipped
               message := if r.isNewLead then "Webhook processed and lead created"
                 else "Opened lead already exists for this phone number"
               lead_id := some r.leadId
               count := match r.existingCount with
                 | none => none
                 | some c => if c = 0 then none else some c },
              db1, tr0 ++ tr1 ++ trRel ++ [Effect.dispatchStageWebhook])

/-- A structured `status`/`message` service response (the shape of
`ChangeLeadStageResponse` and `EventResponse`). -/
structure SimpleResponse where
  status : Status
  message : String
  deriving DecidableEq, Repr

/-- JS truthiness of a nullable number: `null`/`undefined`/`0` are falsy
(the `!dto.leadId` validation of the source). -/
def jsNat : Option Nat → Option Nat
  | none => none
  | some n => if n = 0 then none else some n

/-- The `ChangeLeadStageDto` request body. -/
structure ChangeLeadStageDto where
  leadId : Option Nat
  newPipelineStageId : Option Nat
  deriving DecidableEq, Repr

/-- `IncomingWebhooksService.changeLeadStage`: validate the two ids, verify
the lead and the target stage exist, return success without writing when the
lead is already at the target stage, otherwise update the lead's stage
pointer. -/
def changeLeadStage (db : DB) (dto : ChangeLeadStageDto) :
    SimpleResponse × DB × List Effect :=
  match jsNat dto.leadId with
  | none => ({ status := .error, message := "Invalid leadId format" }, db, [])
  | some leadId =>
    match jsNat dto.newPipelineStageId with
    | none =>
      ({ status := .error, message := "Invalid newPipelineStageId format" }, db, [])
    | some newStageId =>
      match single (db.leads.filter (fun l => decide (l.id = leadId))) with
      | none =>
        ({ status := .error, message := "Lead not found" }, db,
          [Effect.storeRead "pipeline_stage_leads"])
      | some existingLead =>
        match single (db.stages.filter (fun s => decide (s.id = newStageId))) with
        | none =>
          ({ status := .error, message := "New pipeline stage not found" }, db,
            [Effect.storeRead "pipeline_stage_leads",
             Effect.storeRead "pipeline_stages"])
        | some _newStage =>
          if existingLead.pipeline_stage_id = newStageId then
            ({ status := .success, message := "Lead is already in the target stage" },
              db,
              [Effect.storeRead "pipeline_stage_leads",
               Effect.storeRead "pipeline_stages"])
          else
            let db1 : DB :=
              { db with leads := db.leads.map (fun l =>
                  if l.id = leadId then { l with pipeline_stage_id := newStageId }
                  else l) }
            ({ status := .success, message := "Lead stage updated successfully" },
              db1,
              [Effect.storeRead "pipeline_stage_leads",
               Effect.storeRead "pipeline_stages",
               Effect.storeWrite "pipeline_stage_leads"])

/-- `SignatureService.validateSignature`.  The HMAC primitive
(`crypto.createHmac(algorithm, secret).update(payload).digest(encoding)`) is
passed in as `hmacDigest secret payload`; the timing-safe comparator leaves a
`timingSafeCompare` effect and decides string equality. -/
def validateSignature (hmacDigest : String → String → String)
    (payload signature secret : String) : Bool × List Effect :=
  let expectedSignature := hmacDigest secret payload
  if signature.length ≠ expectedSignature.length then
    (false, [])
  else
    (decide (signature = expectedSignature), [Effect.timingSafeCompare])

/-- Ambient inputs of `GoogleService.getValidAccessToken`: the clock, the
OAuth client configuration, and the outcome of the token-refresh request
(`none` models a thrown request error). -/
structure GoogleEnv where
  now : Int
  clientId : Option String
  clientSecret : Option String
  refreshResponse : Option (String × Int)

/-- `GoogleService.getValidAccessToken`: return the stored access token while
its expiry is more than 5 minutes away; otherwise refresh it, storing the
rotated token, and return `null` when no refresh token, no client
credentials, or a failed refresh request makes that impossible. -/
def getValidAccessToken (env : GoogleEnv) (db : DB)
    (connection : OAuthConnection) : Option String × DB × List Effect :=
  let expiresAt : Int := connection.token_expires_at.getD 0
  if expiresAt - env.now > 5 * 60 * 1000 then
    (connection.access_token, db, [])
  else
    match jsOpt connection.refresh_token with
    | none => (none, db, [])
    | some _refreshToken =>
      if jsTruthy env.clientId && jsTruthy env.clientSecret then
        match env.refreshResponse with
        | none => (none, db, [Effect.tokenRefresh])
        | some (access_token, expires_in) =>
          let newTokenExpiresAt := env.now + expires_in * 1000
          let db1 : DB :=
            { db with connections := db.connections.map (fun c =>
                if c.id = connection.id then
                  { c with
                    access_token := some access_token
                    token_expires_at := some newTokenExpiresAt
                    updated_at := some env.now }
                else c) }
          (some access_token, db1,
            [Effect.tokenRefresh,
             Effect.storeWrite "business_employee_oauth_connections"])
      else (none, db, [])

/-- A busy interval returned by the free/busy query.  `stop` is the `end`
field of the source (a Lean keyword). -/
structure BusyInterval where
  start : Int
  stop : Int
  deriving DecidableEq, Repr

/-- Ambient inputs of `GoogleService.checkAvailability`: the free/busy query
(over `[timeMin, timeMax]` in epoch milliseconds), the clock (`Date.now()`),
and the epoch instant of 00:00:00 of the requested date in the caller's
timezone (the value the source derives with `Intl.DateTimeFormat`). -/
structure CalendarEnv where
  freeBusy : Int → Int → List BusyInterval
  now : Int
  dayStart : Int

/-- One minute in milliseconds. -/
def minuteMs : Int := 60000

/-- One hour in milliseconds. -/
def hourMs : Int := 3600000

/-- The 30-minute slot-search step of `findAvailableSlots`. -/
def slotStepMs : Int := 30 * 60000

/-- The busy-overlap test of the slot loop:
`slotStart < busy.end && slotEnd > busy.start` for some busy interval. -/
def overlapsBusy (busy : List BusyInterval) (slotStart slotEnd : Int) : Bool :=
  busy.any (fun b => decide (slotStart < b.stop) && decide (slotEnd > b.start))

/-- The `while` loop of `GoogleService.findAvailableSlots`, fuelled: while the
slot fits before the end of the working window, push it unless it overlaps a
busy interval or lies in the past, stop once five slots are collected, and
advance by 30 minutes. -/
def findSlotsAux (busy : List BusyInterval) (now durMs endWork : Int) :
    Nat → Int → List Int → List Int
  | 0, _, acc => acc
  | fuel + 1, currentSlot, acc =>
    if currentSlot + durMs ≤ endWork then
      let isBusy := overlapsBusy busy currentSlot (currentSlot + durMs)
      let isPast := decide (currentSlot < now)
      let acc1 := if !isBusy && !isPast then acc ++ [currentSlot] else acc
      if 5 ≤ acc1.length then acc1
      else findSlotsAux busy now durMs endWork fuel (currentSlot + slotStepMs) acc1
    else acc

/-- `GoogleService.findAvailableSlots`: query free/busy for the whole
requested calendar day, then walk the caller's working-hour window in
30-minute steps collecting up to five start instants.  The fuel bounds the
number of loop iterations from above. -/
def findAvailableSlots (env : CalendarEnv) (duration : Int)
    (minWorkingHour maxWorkingHour : Int) : List Int :=
  let dayEnd := env.dayStart + 24 * hourMs - 1000
  let busyIntervals := env.freeBusy env.dayStart dayEnd
  let workStart := env.dayStart + minWorkingHour * hourMs
  let workEnd := env.dayStart + maxWorkingHour * hourMs
  let durMs := duration * minuteMs
  let fuel := (workEnd - workStart).toNat / slotStepMs.toNat + 1
  findSlotsAux busyIntervals env.now durMs workEnd fuel workStart []

/-- The result shape of `GoogleService.checkAvailability`; suggested slot
start instants stand in for their ISO-8601 renderings. -/
structure AvailabilityResult where
  isAvailable : Bool
  message : String
  suggestedSlots : Option (List Int)
  deriving DecidableEq, Repr

/-- `GoogleService.checkAvailability`: free/busy over
`[timeMin, timeMin + duration minutes)`; available exactly when no busy
interval comes back, otherwise suggest alternative slots for the same day
(omitted from the result when the search finds none). -/
def checkAvailability (env : CalendarEnv) (timeMin duration : Int)
    (minWorkingHour maxWorkingHour : Int) : AvailabilityResult × List Effect :=
  let timeMax := timeMin + duration * minuteMs
  let busy := env.freeBusy timeMin timeMax
  if busy.length = 0 then
    ({ isAvailable := true
       message := "Time slot is available"
       suggestedSlots := none }, [Effect.freeBusyQuery])
  else
    let suggestedSlots := findAvailableSlots env duration minWorkingHour maxWorkingHour
    ({ isAvailable := false
       message := "Time slot is already occupied"
       suggestedSlots := if suggestedSlots.length > 0 then some suggestedSlots else none },
      [Effect.freeBusyQuery, Effect.freeBusyQuery])

/-- A raw provider message, as sniffed by the dispatcher.  `sender` is the
`from` field of the source (a Lean keyword); `textBody` is `text?.body`. -/
structure RawMsg where
  sender : Option String
  textBody : Option String
  body : Option String
  message : Option String
  deriving DecidableEq, Repr

/-- Stands in for `JSON.stringify(msg)`: some non-empty rendering of the raw
record (its exact text is irrelevant to the dispatcher, which only tests
non-emptiness). -/
def stringifyRaw (m : RawMsg) : String :=
  "\x7b" ++ jsOr m.sender "" ++ jsOr m.textBody "" ++ jsOr m.body "" ++
    jsOr m.message "" ++ "\x7d"

/-- A classified chat message of the outbound webhook payload. -/
structure ChatMessage where
  type : String
  message : String
  deriving DecidableEq, Repr

/-- The per-message transform of `executeStageWebhook`: classify by sender
(customer when the sender equals or contains the lead's phone number) and
extract the body text through the `text.body` / `body` / `message` /
`JSON.stringify` fallback chain. -/
def classifyMessage (leadPhone : String) (m : RawMsg) : ChatMessage :=
  let isFromCustomer :=
    decide (m.sender = some leadPhone) ||
      (match m.sender with
       | some s => decide (List.IsInfix leadPhone.toList s.toList)
       | none => false)
  { type := if isFromCustomer then "customer" else "salesperson"
    message := jsOr m.textBody (jsOr m.body (jsOr m.message (stringifyRaw m))) }

/-- The record bundle handed to `executeStageWebhook` (the
`assignedBusinessEmployee` passthrough, which no control flow inspects, is
elided). -/
structure DispatchData where
  lead : Lead
  business : Business
  pipeline : Pipeline
  previousStages : List Stage
  nextStages : List Stage
  deriving DecidableEq, Repr

/-- Outcomes of the dispatcher's two external calls: the WhatsApp
message-history fetch and the `axios.post` to the stage's webhook URL
(`Except.error` models a throw / non-2xx response). -/
structure WebhookEnv where
  getMessages : Except String (List RawMsg)
  postOutcome : Except String Unit

/-- What `executeStageWebhook` posted: the target URL and the payload parts
the claims inspect. -/
structure PostedPayload where
  url : String
  stageId : Nat
  leadId : Nat
  messages : List ChatMessage
  deriving DecidableEq, Repr

/-- `OutgoingWebhooksService.executeStageWebhook`: skip entirely when the
stage has no webhook URL; fetch and classify the last messages when the lead
and pipeline carry the needed identifiers, falling back to an empty list when
the fetch throws; POST the payload; swallow any POST failure.  The result is
`Except.ok` on every path — the function never re-throws. -/
def executeStageWebhook (env : WebhookEnv) (stage : Stage) (d : DispatchData) :
    Except String (Option PostedPayload) × List Effect :=
  match jsOpt stage.webhook_url with
  | none => (.ok none, [])
  | some webhookUrl =>
    let wantMessages :=
      jsTruthy d.lead.whatsapp_conversation_id && jsTruthy d.lead.phone_number &&
        jsTruthy d.pipeline.whatsapp_phone_number_id
    let fetched : List ChatMessage × List Effect :=
      if wantMessages then
        match env.getMessages with
        | .ok rawMessages =>
          ((rawMessages.map (classifyMessage (d.lead.phone_number.getD ""))).filter
              (fun m => decide (m.message ≠ "")),
            [Effect.whatsappGetMessages])
        | .error _ => ([], [Effect.whatsappGetMessages])
      else ([], [])
    let payload : PostedPayload :=
      { url := webhookUrl
        stageId := stage.id
        leadId := d.lead.id
        messages := fetched.1 }
    match env.postOutcome with
    | .ok _ => (.ok (some payload), fetched.2 ++ [Effect.httpPost webhookUrl])
    | .error _ => (.ok (some payload), fetched.2 ++ [Effect.httpPost webhookUrl])

/-- The projection `EventsService.handleEvent` selects for a lead: its phone
number and, through `pipeline_stages(pipelines(...))`, the pipeline's
WhatsApp phone-number id. -/
structure LeadJoin where
  phone_number : Option String
  whatsappPhoneNumberId : Option String
  deriving DecidableEq, Repr

/-- The joined single-row lead query of `EventsService.handleEvent`. -/
def lookupLeadJoin (db : DB) (leadId : Nat) : Option LeadJoin :=
  (single (db.leads.filter (fun l => decide (l.id = leadId)))).map (fun l =>
    { phone_number := l.phone_number
      whatsappPhoneNumberId :=
        (single (db.stages.filter
            (fun s => decide (s.id = l.pipeline_stage_id)))).bind (fun s =>
          (single (db.pipelines.filter
              (fun p => decide (p.id = s.pipeline_id)))).bind (fun p =>
            p.whatsapp_phone_number_id)) })

/-- The `/events/webhook` request body. -/
structure EventBody where
  response : String
  leadId : Nat
  deriving DecidableEq, Repr

/-- `EventsService.handleEvent`, with `sendOutcome` the outcome of the
outbound `whatsappService.sendMessage` call.  The source's first branch
returns the missing-fields error precisely when BOTH the joined phone-number
id and the lead's phone number are truthy; the send is reached only
otherwise, with `?? ''` fallbacks for the missing values. -/
def handleEvent (db : DB) (sendOutcome : Except String Unit)
    (body : EventBody) : SimpleResponse × List Effect :=
  let readFx : List Effect := [Effect.storeRead "pipeline_stage_leads"]
  match lookupLeadJoin db body.leadId with
  | some lead =>
    if jsTruthy lead.whatsappPhoneNumberId && jsTruthy lead.phone_number then
      ({ status := .error
         message := "Missing phoneNumberId or phoneNumber in lead" }, readFx)
    else if body.response = "" then
      ({ status := .error, message := "Invalid response format" }, readFx)
    else
      let sendFx := Effect.whatsappSend (lead.whatsappPhoneNumberId.getD "")
        (lead.phone_number.getD "")
      match sendOutcome with
      | .ok _ =>
        ({ status := .success
           message := "AI Agent response sent via WhatsApp" }, readFx ++ [sendFx])
      | .error _ =>
        ({ status := .error
           message := "Failed to send message via WhatsApp" }, readFx ++ [sendFx])
  | none =>
    ({ status := .error, message := "Error getting lead" }, readFx)

/-! ## Concrete fixtures (used by witness theorems) -/

/-- A pipeline with WhatsApp enabled on channel `pn1`. -/
def pipelineA : Pipeline :=
  { id := 1, business_id := 5, whatsapp_is_enabled := true,
    whatsapp_phone_number_id := some "pn1" }

/-- The business owning `pipelineA`. -/
def businessA : Business := { id := 5 }

/-- The input stage of `pipelineA`, with a webhook URL configured. -/
def stageA : Stage :=
  { id := 10, pipeline_id := 1, business_id := 5, position := 2,
    is_input := true, webhook_url := some "https://example.test/hook" }

/-- A stage before the input stage, without a webhook URL. -/
def stageB : Stage :=
  { id := 9, pipeline_id := 1, business_id := 5, position := 1,
    is_input := false, webhook_url := none }

/-- A stage after the input stage. -/
def stageC : Stage :=
  { id := 11, pipeline_id := 1, business_id := 5, position := 3,
    is_input := false, webhook_url := none }

/-- An open lead sitting at `stageA`. -/
def leadOpenA : Lead :=
  { id := 7, customer_name := "Ana", phone_number := some "+54111",
    email := none, pipeline_stage_id := 10, value := 0,
    whatsapp_conversation_id := some "c1", business_id := 5,
    closed_at := none }

/-- A store with the pipeline, business and stages but no leads. -/
def dbA : DB :=
  { pipelines := [pipelineA], businesses := [businessA],
    stages := [stageB, stageA, stageC], leads := [], connections := [],
    nextLeadId := 100 }

/-- `dbA` with the open lead `leadOpenA` present. -/
def dbB : DB := { dbA with leads := [leadOpenA] }

/-- An inbound event body for channel `pn1` and the phone number of
`leadOpenA`. -/
def bodyA : WebhookBody :=
  { phone_number_id := some "pn1",
    conversation := some
      { contact_name := some "Ana", phone_number := some "+54111",
        email := none, id := some "c1" } }

/-- The dispatch bundle for `leadOpenA` on `pipelineA`. -/
def dispatchA : DispatchData :=
  { lead := leadOpenA, business := businessA, pipeline := pipelineA,
    previousStages := [], nextStages := [] }

/-- `dbA` with a lead (id 1) that has both a phone number and, through
`stageA` and `pipelineA`, a WhatsApp phone-number id. -/
def dbEvBoth : DB := { dbA with leads := [{ leadOpenA with id := 1 }] }

/-- `dbA` with a lead (id 1) that has no phone number. -/
def dbEvMiss : DB :=
  { dbA with leads := [{ leadOpenA with id := 1, phone_number := none }] }

/-- A calendar whose every free/busy answer is one busy interval covering the
first hour of the epoch day. -/
def calEnvA : CalendarEnv :=
  { freeBusy := fun _ _ => [{ start := 0, stop := 3600000 }],
    now := 0, dayStart := 0 }

/-! ## Theorems -/

/-- C3: for every inbound event body whose phone-number-id field is falsy
(absent or empty), `handleWhatsappWebhook` returns the error-status result
and performs no record-store read or write: the state is unchanged and the
effect trace is empty. -/
theorem handleWhatsappWebhook_missing_phoneNumberId (db : DB)
    (body : WebhookBody) (h : jsOpt body.phone_number_id = none) :
    handleWhatsappWebhook db body =
      ({ status := .error, message := "Missing phone_number_id",
         lead_id := none, count := none }, db, ([] : List Effect)) := by
  simp [handleWhatsappWebhook, extractConversationInfo, h, webhookError]

/-- Witness for C3: a concrete event body with no phone-number-id. -/
theorem handleWhatsappWebhook_missing_phoneNumberId_witness :
    handleWhatsappWebhook
        { pipelines := [], businesses := [], stages := [], leads := [],
          connections := [], nextLeadId := 1 }
        { phone_number_id := none, conversation := none } =
      ({ status := .error, message := "Missing phone_number_id",
         lead_id := none, count := none },
        { pipelines := [], businesses := [], stages := [], leads := [],
          connections := [], nextLeadId := 1 }, ([] : List Effect)) :=
  handleWhatsappWebhook_missing_phoneNumberId _ _ (by decide)

/-- C7: `validateSignature` returns `false` without invoking the timing-safe
comparator whenever the received signature's length differs from the expected
HMAC digest's length; for equal lengths the timing-safe comparator runs and
the result is `true` exactly when the received signature equals the HMAC of
the payload under the secret. -/
theorem validateSignature_spec (hmacDigest : String → String → String)
    (payload signature secret : String) :
    (signature.length ≠ (hmacDigest secret payload).length →
      validateSignature hmacDigest payload signature secret =
        (false, ([] : List Effect))) ∧
    (signature.length = (hmacDigest secret payload).length →
      (validateSignature hmacDigest payload signature secret).2 =
          [Effect.timingSafeCompare] ∧
      ((validateSignature hmacDigest payload signature secret).1 = true ↔
        signature = hmacDigest secret payload)) := by
  constructor
  · intro h
    simp [validateSignature, h]
  · intro h
    simp [validateSignature, h]

/-- Witness for C7: a length-mismatched signature fails fast with no
comparator call, and an equal-length incorrect signature reaches the
comparator and fails. -/
theorem validateSignature_spec_witness :
    validateSignature (fun s p => s ++ p) "payload" "xy" "secret" =
        (false, ([] : List Effect)) ∧
    (validateSignature (fun s p => s ++ p) "payload" "aaaaaaaaaaaaa" "secret").2 =
        [Effect.timingSafeCompare] ∧
    ((validateSignature (fun s p => s ++ p) "payload" "aaaaaaaaaaaaa" "secret").1 = true ↔
      "aaaaaaaaaaaaa" = (fun s p => s ++ p) "secret" "payload") :=
  ⟨(validateSignature_spec (fun s p => s ++ p) "payload" "xy" "secret").1
      (by decide),
   (validateSignature_spec (fun s p => s ++ p) "payload" "aaaaaaaaaaaaa" "secret").2
      (by decide)⟩

/-- C9: `getValidAccessToken` returns the stored access token with no state
change and no effects whenever the connection's expiry lies more than five
minutes past `now`; otherwise, when no refresh token is available, it returns
`null` with no state change and no effects (in particular it neither queries
nor books the calendar). -/
theorem getValidAccessToken_spec (env : GoogleEnv) (db : DB)
    (connection : OAuthConnection) :
    (connection.token_expires_at.getD 0 - env.now > 5 * 60 * 1000 →
      getValidAccessToken env db connection =
        (connection.access_token, db, ([] : List Effect))) ∧
    (¬ connection.token_expires_at.getD 0 - env.now > 5 * 60 * 1000 →
      jsOpt connection.refresh_token = none →
      getValidAccessToken env db connection = (none, db, ([] : List Effect))) ∧
    (∀ rt, ¬ connection.token_expires_at.getD 0 - env.now > 5 * 60 * 1000 →
      jsOpt connection.refresh_token = some rt →
      (jsTruthy env.clientId && jsTruthy env.clientSecret) = true →
      Effect.tokenRefresh ∈ (getValidAccessToken env db connection).2.2) := by
  refine ⟨?_, ?_, ?_⟩
  · intro h
    simp only [getValidAccessToken]
    rw [if_pos h]
  · intro h hrt
    simp only [getValidAccessToken]
    rw [if_neg h, hrt]
  · intro rt h hrt hcred
    rw [Bool.and_eq_true] at hcred
    simp only [getValidAccessToken]
    rw [if_neg h, hrt]
    cases env.refreshResponse with
    | none => simp [hcred.1, hcred.2]
    | some p =>
      cases p with
      | mk tok exp => simp [hcred.1, hcred.2]

/-- Witness for C9: a connection expiring far in the future keeps its token;
an expired connection without a refresh token yields `null`. -/
theorem getValidAccessToken_spec_witness :
    getValidAccessToken
        { now := 0, clientId := some "cid", clientSecret := some "cs",
          refreshResponse := none }
        { pipelines := [], businesses := [], stages := [], leads := [],
          connections := [], nextLeadId := 1 }
        { id := 1, business_employee_id := 2, business_id := 3,
          access_token := some "tok", refresh_token := some "r",
          token_expires_at := some 10000000, updated_at := none } =
      (some "tok",
        { pipelines := [], businesses := [], stages := [], leads := [],
          connections := [], nextLeadId := 1 }, ([] : List Effect)) ∧
    getValidAccessToken
        { now := 0, clientId := some "cid", clientSecret := some "cs",
          refreshResponse := none }
        { pipelines := [], businesses := [], stages := [], leads := [],
          connections := [], nextLeadId := 1 }
        { id := 1, business_employee_id := 2, business_id := 3,
          access_token := some "tok", refresh_token := none,
          token_expires_at := some 0, updated_at := none } =
      (none,
        { pipelines := [], businesses := [], stages := [], leads := [],
          connections := [], nextLeadId := 1 }, ([] : List Effect)) ∧
    Effect.tokenRefresh ∈
      (getValidAccessToken
        { now := 0, clientId := some "cid", clientSecret := some "cs",
          refreshResponse := some ("t2", 3600) }
        { pipelines := [], businesses := [], stages := [], leads := [],
          connections := [], nextLeadId := 1 }
        { id := 1, business_employee_id := 2, business_id := 3,
          access_token := some "tok", refresh_token := some "r",
          token_expires_at := some 0, updated_at := none }).2.2 :=
  ⟨(getValidAccessToken_spec _ _ _).1 (by decide),
   (getValidAccessToken_spec _ _ _).2.1 (by decide) (by decide),
   (getValidAccessToken_spec _ _ _).2.2 "r" (by decide) (by decide) (by decide)⟩

/-- C10: in `handleEvent`, whenever the lead lookup succeeds and the lead has
both a truthy joined WhatsApp phone-number id and a truthy phone number, the
handler returns the error `"Missing phoneNumberId or phoneNumber in lead"`
and never reaches the outbound send; conversely any send effect in the trace
comes from a looked-up lead missing at least one of the two fields, with
empty-string fallbacks as the send arguments. -/
theorem handleEvent_inverted_guard (db : DB) (sendOutcome : Except String Unit)
    (body : EventBody) :
    ((∃ lead, lookupLeadJoin db body.leadId = some lead ∧
        jsTruthy lead.whatsappPhoneNumberId = true ∧
        jsTruthy lead.phone_number = true) →
      (handleEvent db sendOutcome body).1 =
        { status := .error,
          message := "Missing phoneNumberId or phoneNumber in lead" } ∧
      ∀ a b, Effect.whatsappSend a b ∉ (handleEvent db sendOutcome body).2) ∧
    (∀ a b, Effect.whatsappSend a b ∈ (handleEvent db sendOutcome body).2 →
      ∃ lead, lookupLeadJoin db body.leadId = some lead ∧
        ¬(jsTruthy lead.whatsappPhoneNumberId = true ∧
          jsTruthy lead.phone_number = true) ∧
        a = lead.whatsappPhoneNumberId.getD "" ∧
        b = lead.phone_number.getD "") := by
  constructor
  · rintro ⟨lead, hlook, h1, h2⟩
    simp [handleEvent, hlook, h1, h2]
  · intro a b hmem
    cases hlook : lookupLeadJoin db body.leadId with
    | none => simp [handleEvent, hlook] at hmem
    | some lead =>
      by_cases hg : (jsTruthy lead.whatsappPhoneNumberId &&
          jsTruthy lead.phone_number) = true
      · simp [handleEvent, hlook, hg] at hmem
      · refine ⟨lead, rfl, ?_, ?_⟩
        · rw [Bool.and_eq_true] at hg
          exact hg
        · by_cases hr : body.response = ""
          · simp [handleEvent, hlook, hg, hr] at hmem
          · cases sendOutcome <;>
              simp [handleEvent, hlook, hg, hr] at hmem <;>
              exact hmem

/-- C4: with well-formed ids, `changeLeadStage` returns the `"Lead not
found"` error without touching the store when the lead lookup is empty,
returns the distinct `"New pipeline stage not found"` error without touching
the store when the target-stage lookup is empty, and returns success with no
write at all when the lead already sits at the requested stage. -/
theorem changeLeadStage_spec (db : DB) (dto : ChangeLeadStageDto)
    (leadId newStageId : Nat)
    (hl : jsNat dto.leadId = some leadId)
    (hs : jsNat dto.newPipelineStageId = some newStageId) :
    (single (db.leads.filter (fun l => decide (l.id = leadId))) = none →
      changeLeadStage db dto =
        ({ status := .error, message := "Lead not found" }, db,
          [Effect.storeRead "pipeline_stage_leads"])) ∧
    (∀ lead,
      single (db.leads.filter (fun l => decide (l.id = leadId))) = some lead →
      single (db.stages.filter (fun s => decide (s.id = newStageId))) = none →
      changeLeadStage db dto =
        ({ status := .error, message := "New pipeline stage not found" }, db,
          [Effect.storeRead "pipeline_stage_leads",
           Effect.storeRead "pipeline_stages"])) ∧
    (∀ lead stage,
      single (db.leads.filter (fun l => decide (l.id = leadId))) = some lead →
      single (db.stages.filter (fun s => decide (s.id = newStageId))) = some stage →
      lead.pipeline_stage_id = newStageId →
      changeLeadStage db dto =
        ({ status := .success, message := "Lead is already in the target stage" },
          db,
          [Effect.storeRead "pipeline_stage_leads",
           Effect.storeRead "pipeline_stages"])) := by
  refine ⟨?_, ?_, ?_⟩
  · intro hnone
    simp [changeLeadStage, hl, hs, hnone]
  · intro lead hlead hnone
    simp [changeLeadStage, hl, hs, hlead, hnone]
  · intro lead stage hlead hstage heq
    simp [changeLeadStage, hl, hs, hlead, hstage, heq]

/-- Witness for C4: against `dbB` (one lead, id 7, at stage 10), a missing
lead id, a missing target stage, and a change to the current stage each
produce the stated result with the store unchanged. -/
theorem changeLeadStage_spec_witness :
    changeLeadStage dbB { leadId := some 3, newPipelineStageId := some 10 } =
      ({ status := .error, message := "Lead not found" }, dbB,
        [Effect.storeRead "pipeline_stage_leads"]) ∧
    changeLeadStage dbB { leadId := some 7, newPipelineStageId := some 99 } =
      ({ status := .error, message := "New pipeline stage not found" }, dbB,
        [Effect.storeRead "pipeline_stage_leads",
         Effect.storeRead "pipeline_stages"]) ∧
    changeLeadStage dbB { leadId := some 7, newPipelineStageId := some 10 } =
      ({ status := .success, message := "Lead is already in the target stage" },
        dbB,
        [Effect.storeRead "pipeline_stage_leads",
         Effect.storeRead "pipeline_stages"]) :=
  ⟨(changeLeadStage_spec dbB _ 3 10 (by decide) (by decide)).1 (by decide),
   (changeLeadStage_spec dbB _ 7 99 (by decide) (by decide)).2.1 leadOpenA
      (by decide) (by decide),
   (changeLeadStage_spec dbB _ 7 10 (by decide) (by decide)).2.2 leadOpenA stageA
      (by decide) (by decide) (by decide)⟩

/-- C6: `executeStageWebhook` does nothing when the stage's webhook URL is
falsy; its outcome is `Except.ok` on every path and never depends on the
outcome of the outbound POST (failures are swallowed, not re-thrown); and
when the message-history fetch fails it still performs the POST, with an
empty message list in the payload. -/
theorem executeStageWebhook_spec (env : WebhookEnv) (stage : Stage)
    (d : DispatchData) :
    (jsOpt stage.webhook_url = none →
      executeStageWebhook env stage d = (.ok none, ([] : List Effect))) ∧
    (executeStageWebhook env stage d).1.isOk = true ∧
    (∀ x, executeStageWebhook { env with postOutcome := x } stage d =
      executeStageWebhook env stage d) ∧
    (∀ url e, jsOpt stage.webhook_url = some url →
      (jsTruthy d.lead.whatsapp_conversation_id && jsTruthy d.lead.phone_number &&
        jsTruthy d.pipeline.whatsapp_phone_number_id) = true →
      env.getMessages = .error e →
      executeStageWebhook env stage d =
        (.ok (some { url := url, stageId := stage.id, leadId := d.lead.id,
                     messages := [] }),
          [Effect.whatsappGetMessages, Effect.httpPost url])) := by
  refine ⟨?_, ?_, ?_, ?_⟩
  · intro h
    simp [executeStageWebhook, h]
  · cases h : jsOpt stage.webhook_url with
    | none => simp [executeStageWebhook, h, Except.isOk, Except.toBool]
    | some url =>
      cases hp : env.postOutcome <;>
        simp [executeStageWebhook, h, hp, Except.isOk, Except.toBool]
  · intro x
    cases h : jsOpt stage.webhook_url with
    | none => simp [executeStageWebhook, h]
    | some url =>
      cases x <;> cases hp : env.postOutcome <;>
        simp [executeStageWebhook, h, hp]
  · intro url e hu hw hm
    cases hp : env.postOutcome <;>
      simp [executeStageWebhook, hu, hw, hm, hp]

/-- Witness for C6: a stage with no webhook URL is a no-op, and a failing
message fetch still leads to the POST with an empty message list. -/
theorem executeStageWebhook_spec_witness :
    executeStageWebhook { getMessages := .ok [], postOutcome := .ok () }
        stageB dispatchA = (.ok none, ([] : List Effect)) ∧
    executeStageWebhook
        { getMessages := .error "boom", postOutcome := .error "http 500" }
        stageA dispatchA =
      (.ok (some { url := "https://example.test/hook", stageId := 10,
                   leadId := 7, messages := [] }),
        [Effect.whatsappGetMessages, Effect.httpPost "https://example.test/hook"]) :=
  ⟨(executeStageWebhook_spec _ stageB dispatchA).1 (by decide),
   (executeStageWebhook_spec _ stageA dispatchA).2.2.2 "https://example.test/hook"
      "boom" (by decide) (by decide) rfl⟩

/-- Witness for C10: a lead with both fields present hits the inverted guard
(error, no send), and a lead with a missing phone number is the only way a
send effect arises, with the empty-string fallback as the recipient. -/
theorem handleEvent_inverted_guard_witness :
    ((handleEvent dbEvBoth (.ok ()) { response := "hi", leadId := 1 }).1 =
        { status := .error,
          message := "Missing phoneNumberId or phoneNumber in lead" } ∧
      ∀ a b, Effect.whatsappSend a b ∉
        (handleEvent dbEvBoth (.ok ()) { response := "hi", leadId := 1 }).2) ∧
    (∃ lead, lookupLeadJoin dbEvMiss 1 = some lead ∧
      ¬(jsTruthy lead.whatsappPhoneNumberId = true ∧
        jsTruthy lead.phone_number = true) ∧
      "pn1" = lead.whatsappPhoneNumberId.getD "" ∧
      "" = lead.phone_number.getD "") :=
  ⟨(handleEvent_inverted_guard dbEvBoth (.ok ()) { response := "hi", leadId := 1 }).1
      ⟨{ phone_number := some "+54111", whatsappPhoneNumberId := some "pn1" },
        by decide, by decide, by decide⟩,
   (handleEvent_inverted_guard dbEvMiss (.ok ()) { response := "hi", leadId := 1 }).2
      "pn1" "" (by decide)⟩

/-- C1: when the event extracts, the pipeline / business / input stage all
resolve, and the phone number has at least one open lead, handling the event
leaves the store unchanged (no new record), returns status `skipped`, reports
the observed open-lead count, and the returned lead id belongs to an existing
open lead of that phone number. -/
theorem handleWhatsappWebhook_skips_open_leads (db : DB) (body : WebhookBody)
    (info : ConversationInfo) (pipeline : Pipeline) (business : Business)
    (stage : Stage) (phone : String)
    (hinfo : extractConversationInfo body = some info)
    (hphone : jsOpt info.phoneNumber = some phone)
    (hpipe : findPipeline db info.phoneNumberId = some pipeline)
    (hbus : findBusiness db pipeline.business_id = some business)
    (hstage : findInputStage db pipeline.id = some stage)
    (hopen : 0 < countOpenLeads db phone) :
    (handleWhatsappWebhook db body).1.status = .skipped ∧
    (handleWhatsappWebhook db body).2.1 = db ∧
    (handleWhatsappWebhook db body).1.count = some (countOpenLeads db phone) ∧
    ∃ l ∈ db.leads, l.closed_at = none ∧ l.phone_number = some phone ∧
      (handleWhatsappWebhook db body).1.lead_id = some l.id := by
  have hne : openLeadsFor db phone ≠ [] := by
    intro h0
    rw [countOpenLeads, h0] at hopen
    exact absurd hopen (by simp)
  have hhead : (openLeadsFor db phone).head? =
      some ((openLeadsFor db phone).head hne) := List.head?_eq_head hne
  have hmem : (openLeadsFor db phone).head hne ∈ openLeadsFor db phone :=
    List.head_mem hne
  have hmem2 := List.mem_filter.mp hmem
  have hcnt : (openLeadsFor db phone).length ≠ 0 := Nat.pos_iff_ne_zero.mp hopen
  have hgoal : handleWhatsappWebhook db body =
      ({ status := .skipped
         message := "Opened lead already exists for this phone number"
         lead_id := some ((openLeadsFor db phone).head hne).id
         count := some (countOpenLeads db phone) }, db,
        [Effect.storeRead "pipelines", Effect.storeRead "businesses",
         Effect.storeRead "pipeline_stages",
         Effect.storeRead "pipeline_stage_leads",
         Effect.storeRead "pipeline_stage_leads",
         Effect.storeRead "pipeline_stages", Effect.storeRead "pipeline_stages",
         Effect.dispatchStageWebhook]) := by
    simp only [handleWhatsappWebhook, hinfo, hpipe, hbus, hstage,
      getOrCreateLead, hphone]
    rw [if_pos (show (openLeadsFor db phone).length > 0 from hopen), hhead]
    simp [countOpenLeads, hcnt]
  refine ⟨by rw [hgoal], by rw [hgoal], by rw [hgoal], ?_⟩
  refine ⟨(openLeadsFor db phone).head hne, hmem2.1, ?_, ?_, by rw [hgoal]⟩
  · have := hmem2.2
    simp only [Bool.and_eq_true, decide_eq_true_eq] at this
    exact this.2
  · have := hmem2.2
    simp only [Bool.and_eq_true, decide_eq_true_eq] at this
    exact this.1

/-- Witness for C1: replaying the event for the open lead of `dbB` yields
`skipped` with count 1 and the existing lead's id, and the store unchanged. -/
theorem handleWhatsappWebhook_skips_open_leads_witness :
    (handleWhatsappWebhook dbB bodyA).1.status = .skipped ∧
    (handleWhatsappWebhook dbB bodyA).2.1 = dbB ∧
    (handleWhatsappWebhook dbB bodyA).1.count = some (countOpenLeads dbB "+54111") ∧
    ∃ l ∈ dbB.leads, l.closed_at = none ∧ l.phone_number = some "+54111" ∧
      (handleWhatsappWebhook dbB bodyA).1.lead_id = some l.id :=
  handleWhatsappWebhook_skips_open_leads dbB bodyA
    { phoneNumberId := "pn1", customerName := "Ana",
      phoneNumber := some "+54111", email := none,
      whatsappConversationId := some "c1" }
    pipelineA businessA stageA "+54111"
    (by decide) (by decide) (by decide) (by decide) (by decide) (by decide)

/-- C2: when the event extracts, the pipeline / business / input stage all
resolve, and the phone number has zero open leads, handling the event appends
exactly one new lead row — at the resolved input stage, with value 0 — and
returns status `success` carrying the new lead's id. -/
theorem handleWhatsappWebhook_creates_lead (db : DB) (body : WebhookBody)
    (info : ConversationInfo) (pipeline : Pipeline) (business : Business)
    (stage : Stage) (phone : String)
    (hinfo : extractConversationInfo body = some info)
    (hphone : jsOpt info.phoneNumber = some phone)
    (hpipe : findPipeline db info.phoneNumberId = some pipeline)
    (hbus : findBusiness db pipeline.business_id = some business)
    (hstage : findInputStage db pipeline.id = some stage)
    (hzero : countOpenLeads db phone = 0) :
    (handleWhatsappWebhook db body).1.status = .success ∧
    (handleWhatsappWebhook db body).1.lead_id = some db.nextLeadId ∧
    (handleWhatsappWebhook db body).2.1.leads =
      db.leads ++ [newLeadRow info stage db.nextLeadId phone] ∧
    (newLeadRow info stage db.nextLeadId phone).pipeline_stage_id = stage.id ∧
    (newLeadRow info stage db.nextLeadId phone).value = 0 ∧
    (newLeadRow info stage db.nextLeadId phone).id = db.nextLeadId := by
  have hlen : ¬ (openLeadsFor db phone).length > 0 := by
    rw [countOpenLeads] at hzero
    omega
  have hgoal : handleWhatsappWebhook db body =
      ({ status := .success
         message := "Webhook processed and lead created"
         lead_id := some db.nextLeadId
         count := none },
        { db with leads := db.leads ++ [newLeadRow info stage db.nextLeadId phone]
                  nextLeadId := db.nextLeadId + 1 },
        [Effect.storeRead "pipelines", Effect.storeRead "businesses",
         Effect.storeRead "pipeline_stages",
         Effect.storeRead "pipeline_stage_leads",
         Effect.storeWrite "pipeline_stage_leads",
         Effect.storeRead "pipeline_stages", Effect.storeRead "pipeline_stages",
         Effect.dispatchStageWebhook]) := by
    simp only [handleWhatsappWebhook, hinfo, hpipe, hbus, hstage,
      getOrCreateLead, hphone]
    rw [if_neg hlen]
    simp [newLeadRow]
  exact ⟨by rw [hgoal], by rw [hgoal], by rw [hgoal], rfl, rfl, rfl⟩

/-- Witness for C2: the first event for a fresh phone number against `dbA`
creates the lead with id 100 at input stage 10 with value 0. -/
theorem handleWhatsappWebhook_creates_lead_witness :
    (handleWhatsappWebhook dbA bodyA).1.status = .success ∧
    (handleWhatsappWebhook dbA bodyA).1.lead_id = some dbA.nextLeadId ∧
    (handleWhatsappWebhook dbA bodyA).2.1.leads =
      dbA.leads ++ [newLeadRow
        { phoneNumberId := "pn1", customerName := "Ana",
          phoneNumber := some "+54111", email := none,
          whatsappConversationId := some "c1" } stageA dbA.nextLeadId "+54111"] ∧
    (newLeadRow
        { phoneNumberId := "pn1", customerName := "Ana",
          phoneNumber := some "+54111", email := none,
          whatsappConversationId := some "c1" } stageA dbA.nextLeadId
        "+54111").pipeline_stage_id = stageA.id ∧
    (newLeadRow
        { phoneNumberId := "pn1", customerName := "Ana",
          phoneNumber := some "+54111", email := none,
          whatsappConversationId := some "c1" } stageA dbA.nextLeadId
        "+54111").value = 0 ∧
    (newLeadRow
        { phoneNumberId := "pn1", customerName := "Ana",
          phoneNumber := some "+54111", email := none,
          whatsappConversationId := some "c1" } stageA dbA.nextLeadId
        "+54111").id = dbA.nextLeadId :=
  handleWhatsappWebhook_creates_lead dbA bodyA
    { phoneNumberId := "pn1", customerName := "Ana",
      phoneNumber := some "+54111", email := none,
      whatsappConversationId := some "c1" }
    pipelineA businessA stageA "+54111"
    (by decide) (by decide) (by decide) (by decide) (by decide) (by decide)

/-- C8: `getRelatedStages` returns as previous stages exactly the stages of
the pipeline with position strictly below the current position, ordered by
position descending, and as next stages exactly those strictly above it,
ordered by position ascending. -/
theorem getRelatedStages_spec (db : DB) (pipelineId : Nat) (pos : Int) :
    ((getRelatedStages db pipelineId pos).1.Perm
      (db.stages.filter (fun s =>
        decide (s.pipeline_id = pipelineId) && decide (s.position < pos)))) ∧
    List.Sorted posDesc (getRelatedStages db pipelineId pos).1 ∧
    (∀ s, s ∈ (getRelatedStages db pipelineId pos).1 ↔
      (s ∈ db.stages ∧ s.pipeline_id = pipelineId ∧ s.position < pos)) ∧
    ((getRelatedStages db pipelineId pos).2.Perm
      (db.stages.filter (fun s =>
        decide (s.pipeline_id = pipelineId) && decide (s.position > pos)))) ∧
    List.Sorted posAsc (getRelatedStages db pipelineId pos).2 ∧
    (∀ s, s ∈ (getRelatedStages db pipelineId pos).2 ↔
      (s ∈ db.stages ∧ s.pipeline_id = pipelineId ∧ pos < s.position)) := by
  refine ⟨?_, ?_, ?_, ?_, ?_, ?_⟩
  · exact List.perm_insertionSort _ _
  · exact List.sorted_insertionSort _ _
  · intro s
    simp only [getRelatedStages]
    rw [List.Perm.mem_iff (List.perm_insertionSort _ _), List.mem_filter]
    simp
  · exact List.perm_insertionSort _ _
  · exact List.sorted_insertionSort _ _
  · intro s
    simp only [getRelatedStages]
    rw [List.Perm.mem_iff (List.perm_insertionSort _ _), List.mem_filter]
    simp

/-- The slot loop never grows past five suggestions when it starts with at
most four. -/
theorem findSlotsAux_length_le (busy : List BusyInterval) (now durMs endWork : Int) :
    ∀ (fuel : Nat) (cur : Int) (acc : List Int), acc.length ≤ 4 →
      (findSlotsAux busy now durMs endWork fuel cur acc).length ≤ 5 := by
  intro fuel
  induction fuel with
  | zero =>
    intro cur acc h
    simp only [findSlotsAux]
    omega
  | succ n ih =>
    intro cur acc h
    simp only [findSlotsAux]
    by_cases hg : cur + durMs ≤ endWork
    · simp only [if_pos hg]
      by_cases hP : (!overlapsBusy busy cur (cur + durMs) &&
          !decide (cur < now)) = true
      · simp only [if_pos hP, List.length_append, List.length_singleton]
        by_cases h5 : 5 ≤ acc.length + 1
        · simp only [if_pos h5, List.length_append, List.length_singleton]
          omega
        · simp only [if_neg h5]
          refine ih _ _ ?_
          simp only [List.length_append, List.length_singleton]
          omega
      · simp only [if_neg hP]
        by_cases h5 : 5 ≤ acc.length
        · simp only [if_pos h5]
          omega
        · simp only [if_neg h5]
          exact ih _ _ h
    · simp only [if_neg hg]
      omega

/-- Every suggestion the slot loop adds lies on the 30-minute grid from the
loop's start, fits before the end of the working window, overlaps no busy
interval, and is not in the past. -/
theorem findSlotsAux_mem (busy : List BusyInterval) (now durMs endWork : Int) :
    ∀ (fuel : Nat) (cur : Int) (acc : List Int) (t : Int),
      t ∈ findSlotsAux busy now durMs endWork fuel cur acc →
      t ∈ acc ∨ ((∃ k : Nat, t = cur + k * slotStepMs) ∧ t + durMs ≤ endWork ∧
        overlapsBusy busy t (t + durMs) = false ∧ now ≤ t) := by
  intro fuel
  induction fuel with
  | zero =>
    intro cur acc t ht
    simp only [findSlotsAux] at ht
    exact Or.inl ht
  | succ n ih =>
    intro cur acc t ht
    simp only [findSlotsAux] at ht
    by_cases hg : cur + durMs ≤ endWork
    · simp only [if_pos hg] at ht
      by_cases hP : (!overlapsBusy busy cur (cur + durMs) &&
          !decide (cur < now)) = true
      · have hP' : overlapsBusy busy cur (cur + durMs) = false ∧ now ≤ cur := by
          simp only [Bool.and_eq_true, Bool.not_eq_true',
            decide_eq_false_iff_not] at hP
          exact ⟨hP.1, by omega⟩
        simp only [if_pos hP] at ht
        by_cases h5 : 5 ≤ (acc ++ [cur]).length
        · simp only [if_pos h5] at ht
          rcases List.mem_append.mp ht with h | h
          · exact Or.inl h
          · have hcur : t = cur := by simpa using h
            subst hcur
            exact Or.inr ⟨⟨0, by simp⟩, hg, hP'.1, hP'.2⟩
        · simp only [if_neg h5] at ht
          rcases ih _ _ _ ht with h | h
          · rcases List.mem_append.mp h with h' | h'
            · exact Or.inl h'
            · have hcur : t = cur := by simpa using h'
              subst hcur
              exact Or.inr ⟨⟨0, by simp⟩, hg, hP'.1, hP'.2⟩
          · rcases h with ⟨⟨k, hk⟩, h1, h2, h3⟩
            refine Or.inr ⟨⟨k + 1, ?_⟩, h1, h2, h3⟩
            rw [hk]
            push_cast
            ring
      · simp only [if_neg hP] at ht
        by_cases h5 : 5 ≤ acc.length
        · simp only [if_pos h5] at ht
          exact Or.inl ht
        · simp only [if_neg h5] at ht
          rcases ih _ _ _ ht with h | h
          · exact Or.inl h
          · rcases h with ⟨⟨k, hk⟩, h1, h2, h3⟩
            refine Or.inr ⟨⟨k + 1, ?_⟩, h1, h2, h3⟩
            rw [hk]
            push_cast
            ring
    · simp only [if_neg hg] at ht
      exact Or.inl ht

/-- C5: `checkAvailability` reports available exactly when the free/busy
query over the requested `[date, date + duration)` window returns no busy
interval; when unavailable, the suggested slots number at most five and each
starts at or after the current time, sits on the 30-minute grid of the
caller's working-hour window of that day, ends within that window, and
overlaps none of the busy intervals of the whole-day query. -/
theorem checkAvailability_spec (env : CalendarEnv)
    (timeMin duration minWH maxWH : Int) :
    ((checkAvailability env timeMin duration minWH maxWH).1.isAvailable = true ↔
      env.freeBusy timeMin (timeMin + duration * minuteMs) = []) ∧
    ((checkAvailability env timeMin duration minWH maxWH).1.isAvailable = false →
      ((checkAvailability env timeMin duration minWH maxWH).1.suggestedSlots.getD []).length ≤ 5 ∧
      ∀ t ∈ (checkAvailability env timeMin duration minWH maxWH).1.suggestedSlots.getD [],
        env.now ≤ t ∧
        (∃ k : Nat, t = env.dayStart + minWH * hourMs + k * slotStepMs) ∧
        t + duration * minuteMs ≤ env.dayStart + maxWH * hourMs ∧
        ∀ b ∈ env.freeBusy env.dayStart (env.dayStart + 24 * hourMs - 1000),
          ¬(t < b.stop ∧ b.start < t + duration * minuteMs)) := by
  constructor
  · unfold checkAvailability
    by_cases hb : (env.freeBusy timeMin (timeMin + duration * minuteMs)).length = 0
    · simp only [if_pos hb]
      simpa using List.length_eq_zero.mp hb
    · simp only [if_neg hb]
      have : ¬ env.freeBusy timeMin (timeMin + duration * minuteMs) = [] := by
        intro h0
        exact hb (by rw [h0]; rfl)
      simpa using this
  · intro hna
    have hb : ¬ (env.freeBusy timeMin (timeMin + duration * minuteMs)).length = 0 := by
      intro h0
      unfold checkAvailability at hna
      rw [if_pos h0] at hna
      simp at hna
    have hres : (checkAvailability env timeMin duration minWH maxWH).1.suggestedSlots.getD [] =
        findAvailableSlots env duration minWH maxWH := by
      unfold checkAvailability
      rw [if_neg hb]
      by_cases hlen : (findAvailableSlots env duration minWH maxWH).length > 0
      · simp [hlen]
      · simp only [if_neg hlen]
        simp only [Option.getD]
        exact (List.length_eq_zero.mp (by omega)).symm
    rw [hres]
    constructor
    · unfold findAvailableSlots
      exact findSlotsAux_length_le _ _ _ _ _ _ _ (by simp)
    · intro t ht
      unfold findAvailableSlots at ht
      rcases findSlotsAux_mem _ _ _ _ _ _ _ _ ht with h | h
      · simp at h
      · rcases h with ⟨⟨k, hk⟩, h1, h2, h3⟩
        have hall : ∀ x ∈ env.freeBusy env.dayStart (env.dayStart + 24 * hourMs - 1000),
            t < x.stop → t + duration * minuteMs ≤ x.start := by
          simpa [overlapsBusy] using h2
        refine ⟨h3, ⟨k, hk⟩, h1, ?_⟩
        intro b hbusy hcon
        have := hall b hbusy hcon.1
        omega

/-- Witness for C5: against the calendar `calEnvA` (first hour busy), a
requested one-hour meeting at the epoch is unavailable, and the suggested
slots obey every stated property. -/
theorem checkAvailability_spec_witness :
    ((checkAvailability calEnvA 0 60 9 17).1.suggestedSlots.getD []).length ≤ 5 ∧
    ∀ t ∈ (checkAvailability calEnvA 0 60 9 17).1.suggestedSlots.getD [],
      calEnvA.now ≤ t ∧
      (∃ k : Nat, t = calEnvA.dayStart + 9 * hourMs + k * slotStepMs) ∧
      t + 60 * minuteMs ≤ calEnvA.dayStart + 17 * hourMs ∧
      ∀ b ∈ calEnvA.freeBusy calEnvA.dayStart (calEnvA.dayStart + 24 * hourMs - 1000),
        ¬(t < b.stop ∧ b.start < t + 60 * minuteMs) :=
  (checkAvailability_spec calEnvA 0 60 9 17).2 (by decide)

end CrmApi
